import Mathlib

/-!
Deus: data layouts shared by the host and the shader pipeline.

Embedding of ObservationTypes/Vertex.h and ObservationKitTypes/Uniform.h.

The two headers hold no functions: they declare two structs and two
buffer-index constants.  The embedding has three layers:

* the declarations themselves, as data (`Vertex.decl`, `Uniform.decl`,
  `VERTEX_BUFFER_INDEX`, `UNIFORM_BUFFER_INDEX`) and as value types
  (`Vertex`, `Uniform`);
* the C struct layout algorithm (each member at the next offset that is a
  multiple of its alignment, total size rounded up to the struct alignment),
  parametric in the size and alignment of the member types;
* the size and alignment of the member types, which come from simd/simd.h
  on the host and from the Metal Shading Language on the shader side.
  Neither is part of the repository, so both tables are written out, and
  the layout theorems of the two structs are proved for any table with the
  entries they name.
-/

namespace Deus

/-! Section: Buffer-index constants -/

/-- Constant of Vertex.h, line 24: `#define VERTEX_BUFFER_INDEX 0`. -/
def VERTEX_BUFFER_INDEX : Int := 0

/-- Constant of Uniform.h, line 24: `#define UNIFORM_BUFFER_INDEX 1`. -/
def UNIFORM_BUFFER_INDEX : Int := 1

/-! Section: Values -/

/-- A 32-bit storage unit: the bit pattern of a `float` (IEEE-754 binary32)
or the value of an `unsigned int`. -/
abbrev Word32 := Fin 4294967296

/-- Host value of `vector_float2`: two `float` lanes. -/
structure vector_float2 where
  x : Word32
  y : Word32
  deriving DecidableEq, Repr

/-- Host value of `vector_float3`: three `float` lanes. -/
structure vector_float3 where
  x : Word32
  y : Word32
  z : Word32
  deriving DecidableEq, Repr

/-- Host value of `vector_uint2`: two `unsigned int` lanes. -/
structure vector_uint2 where
  x : Word32
  y : Word32
  deriving DecidableEq, Repr

/-- Value of the struct of Vertex.h, lines 31-37.  The declaration attaches
no constructor, validator or accessor: every pair of member values is a
value of the type. -/
structure Vertex where
  position : vector_float2
  color : vector_float3
  deriving DecidableEq, Repr

/-- Value of the struct of Uniform.h, lines 27-33. -/
structure Uniform where
  scale : Word32
  viewportSize : vector_uint2
  deriving DecidableEq, Repr

/-! Section: Declarations as data -/

/-- Scalar element types of the declared members. -/
inductive Scalar where
  | f32
  | u32
  deriving DecidableEq, Repr

/-- Width in bits of a scalar: C `float` is IEEE-754 binary32 and
`unsigned int` is 32 bits wide on every ABI that ships `<simd/simd.h>`. -/
def Scalar.bits : Scalar → Nat
  | .f32 => 32
  | .u32 => 32

/-- The member types that occur in the two headers, under their C names. -/
inductive CType where
  | float
  | vector_float2
  | vector_float3
  | vector_uint2
  deriving DecidableEq, Repr

/-- Element type of a member type (`vector_floatN` is a vector of `float`,
`vector_uintN` a vector of `unsigned int`). -/
def CType.scalar : CType → Scalar
  | .float => .f32
  | .vector_float2 => .f32
  | .vector_float3 => .f32
  | .vector_uint2 => .u32

/-- Number of components of a member type (the `N` of `vector_floatN`; a
plain `float` has one). -/
def CType.components : CType → Nat
  | .float => 1
  | .vector_float2 => 2
  | .vector_float3 => 3
  | .vector_uint2 => 2

/-- One member of a struct declaration. -/
structure Field (τ : Type) where
  name : String
  type : τ
  deriving DecidableEq, Repr

/-- A struct declaration: its members in declaration order. -/
structure StructDecl (τ : Type) where
  fields : List (Field τ)
  deriving DecidableEq, Repr

/-- Declaration of `Vertex` (Vertex.h, lines 31-37):
`vector_float2 position; vector_float3 color;`. -/
def Vertex.decl : StructDecl CType :=
  ⟨[⟨"position", .vector_float2⟩, ⟨"color", .vector_float3⟩]⟩

/-- Declaration of `Uniform` (Uniform.h, lines 27-33):
`float scale; vector_uint2 viewportSize;`. -/
def Uniform.decl : StructDecl CType :=
  ⟨[⟨"scale", .float⟩, ⟨"viewportSize", .vector_uint2⟩]⟩

/-! Section: Struct layout -/

/-- Size and alignment in bytes of each member type. -/
structure TypeRules (τ : Type) where
  sizeOf : τ → Nat
  alignOf : τ → Nat

/-- Smallest multiple of `a` that is at least `n`. -/
def alignUp (n a : Nat) : Nat := (n + a - 1) / a * a

/-- Offsets of the members of a struct whose first free byte is `off`:
each member goes to the next multiple of its alignment. -/
def layoutFrom {τ : Type} (R : TypeRules τ) : Nat → List (Field τ) → List (String × Nat)
  | _, [] => []
  | off, f :: fs =>
    (f.name, alignUp off (R.alignOf f.type)) ::
      layoutFrom R (alignUp off (R.alignOf f.type) + R.sizeOf f.type) fs

/-- First free byte after the last member. -/
def endFrom {τ : Type} (R : TypeRules τ) : Nat → List (Field τ) → Nat
  | off, [] => off
  | off, f :: fs => endFrom R (alignUp off (R.alignOf f.type) + R.sizeOf f.type) fs

/-- Member offsets of a struct, in declaration order. -/
def fieldOffsets {τ : Type} (R : TypeRules τ) (d : StructDecl τ) : List (String × Nat) :=
  layoutFrom R 0 d.fields

/-- Offset of the member called `n`, if there is one. -/
def offsetOf {τ : Type} (R : TypeRules τ) (d : StructDecl τ) (n : String) : Option Nat :=
  ((fieldOffsets R d).find? (fun p => p.1 == n)).map Prod.snd

/-- Alignment of a struct: the largest alignment among its members. -/
def structAlign {τ : Type} (R : TypeRules τ) (d : StructDecl τ) : Nat :=
  d.fields.foldl (fun a f => max a (R.alignOf f.type)) 1

/-- Size of a struct: the end of the last member rounded up to the struct
alignment. -/
def structSize {τ : Type} (R : TypeRules τ) (d : StructDecl τ) : Nat :=
  alignUp (endFrom R 0 d.fields) (structAlign R d)

/-- Padding bytes between the end of each member and the start of the next
one (or the end of the struct, for the last member). -/
def paddingAfter {τ : Type} (R : TypeRules τ) (d : StructDecl τ) : List (String × Nat) :=
  let offs := fieldOffsets R d
  let starts := (offs.map Prod.snd).drop 1 ++ [structSize R d]
  (List.zip (List.zip d.fields offs) starts).map
    (fun q => (q.1.1.name, q.2 - (q.1.2.2 + R.sizeOf q.1.1.type)))

/-- Size of each member, in declaration order. -/
def fieldSizes {τ : Type} (R : TypeRules τ) (d : StructDecl τ) : List (String × Nat) :=
  d.fields.map (fun f => (f.name, R.sizeOf f.type))

/-- Byte offset of record `i` in an array of structs: C array indexing,
`&a[i] = a + i * sizeof a[0]`. -/
def elemOffset {τ : Type} (R : TypeRules τ) (d : StructDecl τ) (i : Nat) : Nat :=
  i * structSize R d

/-- Type and address of each member of record `i` of an array of structs
that starts at address `base`. -/
def fieldAddrs {τ : Type} (R : TypeRules τ) (d : StructDecl τ) (base i : Nat) : List (τ × Nat) :=
  (List.zip d.fields (fieldOffsets R d)).map
    (fun q => (q.1.type, base + elemOffset R d i + q.2.2))

/-! Section: Host-side rules: `<simd/simd.h>` -/

/-- Lanes of storage a simd type occupies: a three-component vector is
padded to the storage of the four-component one. -/
def CType.storageLanes : CType → Nat
  | .float => 1
  | .vector_float2 => 2
  | .vector_float3 => 4
  | .vector_uint2 => 2

/-- Host-side size and alignment: a scalar or simd vector occupies
`storageLanes` elements and is aligned to its own size. -/
def simdRules : TypeRules CType where
  sizeOf t := t.storageLanes * (t.scalar.bits / 8)
  alignOf t := t.storageLanes * (t.scalar.bits / 8)

/-! Section: Shader-side rules: Metal Shading Language -/

/-- Shader-side member types: the scalar and vector types a shader struct
can use for one float, two or three floats and two unsigned ints, in their
aligned and packed forms. -/
inductive MSLType where
  | float
  | float2
  | float3
  | uint2
  | packed_float2
  | packed_float3
  | packed_uint2
  deriving DecidableEq, Repr

/-- Shader-side size in bytes (Metal Shading Language, size and alignment
of scalar, vector and packed vector data types). -/
def MSLType.size : MSLType → Nat
  | .float => 4
  | .float2 => 8
  | .float3 => 16
  | .uint2 => 8
  | .packed_float2 => 8
  | .packed_float3 => 12
  | .packed_uint2 => 8

/-- Shader-side alignment in bytes (same tables). -/
def MSLType.align : MSLType → Nat
  | .float => 4
  | .float2 => 8
  | .float3 => 16
  | .uint2 => 8
  | .packed_float2 => 4
  | .packed_float3 => 4
  | .packed_uint2 => 4

/-- Shader-side layout rules. -/
def metalRules : TypeRules MSLType where
  sizeOf := MSLType.size
  alignOf := MSLType.align

/-- Modelled from the spec: the shader-side declaration of the vertex
record, which is not among the source files.  The spec describes what the
shader stage expects as a 2-float vector position followed by a 3-float
vector color. -/
def shaderVertex : StructDecl MSLType :=
  ⟨[⟨"position", .float2⟩, ⟨"color", .float3⟩]⟩

/-- Modelled from the spec: the shader-side declaration of the uniform
record, which is not among the source files.  The spec describes what the
shader stage expects as a 1-float scale followed by a 2-unsigned-int vector
viewport size. -/
def shaderUniform : StructDecl MSLType :=
  ⟨[⟨"scale", .float⟩, ⟨"viewportSize", .uint2⟩]⟩

/-- The packed variant of the shader-side vertex record, for comparison. -/
def shaderVertexPacked : StructDecl MSLType :=
  ⟨[⟨"position", .packed_float2⟩, ⟨"color", .packed_float3⟩]⟩

/-! Section: Object representation -/

/-- The four bytes of a 32-bit unit, least significant first (the hosts
that ship `<simd/simd.h>` are little-endian). -/
def Word32.bytesLE (w : Word32) : List Nat :=
  [w.val % 256, w.val / 256 % 256, w.val / 65536 % 256, w.val / 16777216 % 256]

/-- Overwrite `buf` from offset `off` with the bytes `bs`. -/
def writeAt (buf : List (Option Nat)) (off : Nat) (bs : List Nat) : List (Option Nat) :=
  buf.take off ++ bs.map some ++ buf.drop (off + bs.length)

/-- Raw bytes of a struct value: `structSize` bytes, the lanes of each
member stored consecutively from the offset of the member.  A byte that no lane
occupies is padding and has no specified value (`none`). -/
def objectRep {τ : Type} (R : TypeRules τ) (d : StructDecl τ)
    (lanes : List (List Word32)) : List (Option Nat) :=
  (List.zip (fieldOffsets R d) lanes).foldl
    (fun buf p => writeAt buf p.1.2 (p.2.flatMap Word32.bytesLE))
    (List.replicate (structSize R d) none)

/-- Lanes of the members of a `Vertex`, in declaration order. -/
def Vertex.lanes (v : Vertex) : List (List Word32) :=
  [[v.position.x, v.position.y], [v.color.x, v.color.y, v.color.z]]

/-- Lanes of the members of a `Uniform`, in declaration order. -/
def Uniform.lanes (u : Uniform) : List (List Word32) :=
  [[u.scale], [u.viewportSize.x, u.viewportSize.y]]

/-- Raw bytes of a `Vertex` on the host (what `memcpy` of
`sizeof(Vertex)` bytes transfers). -/
def Vertex.toBytes (v : Vertex) : List (Option Nat) :=
  objectRep simdRules Vertex.decl v.lanes

/-- Read the 32-bit unit stored at byte offset `off`; `none` when one of
its four bytes is missing or is padding. -/
def readWord32 (buf : List (Option Nat)) (off : Nat) : Option Word32 :=
  match buf.drop off with
  | some b0 :: some b1 :: some b2 :: some b3 :: _ =>
    some (Fin.ofNat (b0 + 256 * b1 + 65536 * b2 + 16777216 * b3))
  | _ => none

/-- Read the `color` member back from the raw bytes of a `Vertex`. -/
def Vertex.readColor (buf : List (Option Nat)) : Option vector_float3 := do
  let off ← offsetOf simdRules Vertex.decl "color"
  let x ← readWord32 buf off
  let y ← readWord32 buf (off + 4)
  let z ← readWord32 buf (off + 8)
  pure ⟨x, y, z⟩

/-- Read the `position` member back from the raw bytes of a `Vertex`. -/
def Vertex.readPosition (buf : List (Option Nat)) : Option vector_float2 := do
  let off ← offsetOf simdRules Vertex.decl "position"
  let x ← readWord32 buf off
  let y ← readWord32 buf (off + 4)
  pure ⟨x, y⟩

/-! Section: Values of `float` bit patterns -/

/-- Rational value of a binary32 bit pattern: sign bit 31, biased exponent
in bits 30..23, fraction in bits 22..0; `none` for infinities and NaN. -/
def floatValue (w : Word32) : Option ℚ :=
  let s : ℚ := if w.val / 2147483648 = 1 then -1 else 1
  let e := w.val / 8388608 % 256
  let m := w.val % 8388608
  if e = 255 then none
  else if e = 0 then some (s * m / 2 ^ 149)
  else some (s * (8388608 + m) * 2 ^ e / 2 ^ 150)

/-- The bit pattern is a number of the unit range `[0, 1]`. -/
def inUnitRange (w : Word32) : Prop :=
  match floatValue w with
  | some q => 0 ≤ q ∧ q ≤ 1
  | none => False

/-- The vertex of the example of the spec: position `(0.0, 0.0)`, color
`(1.0, 0.0, 0.0)`; `0x3F800000` is the bit pattern of `1.0f`. -/
def exampleVertex : Vertex :=
  ⟨⟨⟨0, by decide⟩, ⟨0, by decide⟩⟩,
   ⟨⟨0x3F800000, by decide⟩, ⟨0, by decide⟩, ⟨0, by decide⟩⟩⟩

/-- A color outside the unit range: `(2.0, -1.0, 0.0)`, as the bit patterns
`0x40000000`, `0xBF800000`, `0x00000000`. -/
def outOfRangeColor : vector_float3 :=
  ⟨⟨0x40000000, by decide⟩, ⟨0xBF800000, by decide⟩, ⟨0, by decide⟩⟩

/-! Section: Lemmas on the layout algorithm and the object representation -/

/-- The result of `alignUp` is a multiple of the alignment. -/
theorem alignUp_dvd (n a : Nat) : a ∣ alignUp n a :=
  Dvd.intro_left _ rfl

/-- For a positive alignment `alignUp` never moves an offset backwards. -/
theorem le_alignUp (n a : Nat) (ha : 0 < a) : n ≤ alignUp n a := by
  unfold alignUp
  have h := Nat.div_add_mod (n + a - 1) a
  have hm := Nat.mod_lt (n + a - 1) ha
  have hc : (n + a - 1) / a * a = a * ((n + a - 1) / a) := Nat.mul_comm _ _
  omega

/-- An offset that is already aligned stays where it is. -/
theorem alignUp_of_dvd (n a : Nat) (ha : 0 < a) (h : a ∣ n) : alignUp n a = n := by
  obtain ⟨k, rfl⟩ := h
  unfold alignUp
  have hk : (k + 1) * a = a * k + a := by rw [Nat.add_mul, Nat.mul_comm k a, Nat.one_mul]
  have h1 : (a * k + a - 1) / a = k :=
    Nat.div_eq_of_lt_le (by rw [Nat.mul_comm k a]; omega) (by rw [hk]; omega)
  rw [h1, Nat.mul_comm]

/-- The raw bytes of a `Vertex`, written out: the eight bytes of `position`,
eight padding bytes, the twelve bytes of the three lanes of `color`, and
the four bytes of the unused fourth lane. -/
theorem Vertex.toBytes_eq (v : Vertex) :
    Vertex.toBytes v =
      (v.position.x.bytesLE ++ v.position.y.bytesLE).map some ++ List.replicate 8 none ++
      (v.color.x.bytesLE ++ v.color.y.bytesLE ++ v.color.z.bytesLE).map some ++
      List.replicate 4 none := by
  rfl

/-- Reassembling the four little-endian bytes of a 32-bit unit gives the
unit back. -/
theorem ofNat_bytesLE (w : Word32) :
    (Fin.ofNat (w.val % 256 + 256 * (w.val / 256 % 256) + 65536 * (w.val / 65536 % 256)
      + 16777216 * (w.val / 16777216 % 256)) : Word32) = w := by
  apply Fin.ext
  have h := w.isLt
  simp only [Fin.ofNat, Nat.succ_eq_add_one]
  omega

/-- Reading `color` back from the raw bytes of a vertex gives its color. -/
theorem Vertex.readColor_toBytes (v : Vertex) :
    Vertex.readColor (Vertex.toBytes v) = some v.color := by
  rw [Vertex.toBytes_eq]
  simp [Vertex.readColor, offsetOf, fieldOffsets, layoutFrom, Vertex.decl, simdRules, alignUp,
    CType.storageLanes, CType.scalar, Scalar.bits, readWord32, Word32.bytesLE, ofNat_bytesLE]

/-- Reading `position` back from the raw bytes of a vertex gives its
position. -/
theorem Vertex.readPosition_toBytes (v : Vertex) :
    Vertex.readPosition (Vertex.toBytes v) = some v.position := by
  rw [Vertex.toBytes_eq]
  simp [Vertex.readPosition, offsetOf, fieldOffsets, layoutFrom, Vertex.decl, simdRules, alignUp,
    CType.storageLanes, CType.scalar, Scalar.bits, readWord32, Word32.bytesLE, ofNat_bytesLE]

/-- The 32-bit units stored in the raw bytes of a vertex: the lanes of
`position` at offsets 0 and 4, the lanes of `color` at offsets 16, 20, 24. -/
theorem Vertex_toBytes_words (v : Vertex) :
    readWord32 (Vertex.toBytes v) 0 = some v.position.x
    ∧ readWord32 (Vertex.toBytes v) 4 = some v.position.y
    ∧ readWord32 (Vertex.toBytes v) 16 = some v.color.x
    ∧ readWord32 (Vertex.toBytes v) 20 = some v.color.y
    ∧ readWord32 (Vertex.toBytes v) 24 = some v.color.z := by
  rw [Vertex.toBytes_eq]
  simp [readWord32, Word32.bytesLE, ofNat_bytesLE]

/-- A shader struct declared with the packed vector types has the 20-byte
layout, which is not the layout of the host struct. -/
theorem shaderVertexPacked_layout :
    fieldOffsets metalRules shaderVertexPacked = [("position", 0), ("color", 8)]
    ∧ structSize metalRules shaderVertexPacked = 20
    ∧ structSize simdRules Vertex.decl ≠ structSize metalRules shaderVertexPacked := by
  decide

/-! Section: Claims -/

/-- C1: the buffer-index constant `VERTEX_BUFFER_INDEX` is 0, the constant
`UNIFORM_BUFFER_INDEX` is 1, and the two are distinct. -/
theorem buffer_indices_distinct :
    VERTEX_BUFFER_INDEX = 0 ∧ UNIFORM_BUFFER_INDEX = 1
    ∧ VERTEX_BUFFER_INDEX ≠ UNIFORM_BUFFER_INDEX := by
  decide

/-- C2, as stated, fails at the vertex of the example (position `(0, 0)`,
color `(1, 0, 0)`): its raw bytes are 32 bytes long, not 20, and they are
not the five floats back to back, since bytes 8 to 15 are padding and the
first color lane sits at offset 16. -/
theorem Vertex_toBytes_not_20_packed :
    (Vertex.toBytes exampleVertex).length = 32
    ∧ readWord32 (Vertex.toBytes exampleVertex) 8 = none
    ∧ readWord32 (Vertex.toBytes exampleVertex) 16 = some exampleVertex.color.x
    ∧ ¬ ((Vertex.toBytes exampleVertex).length = 20
        ∧ readWord32 (Vertex.toBytes exampleVertex) 0 = some exampleVertex.position.x
        ∧ readWord32 (Vertex.toBytes exampleVertex) 4 = some exampleVertex.position.y
        ∧ readWord32 (Vertex.toBytes exampleVertex) 8 = some exampleVertex.color.x
        ∧ readWord32 (Vertex.toBytes exampleVertex) 12 = some exampleVertex.color.y
        ∧ readWord32 (Vertex.toBytes exampleVertex) 16 = some exampleVertex.color.z
        ∧ ∀ b ∈ Vertex.toBytes exampleVertex, b ≠ none) := by
  refine ⟨rfl, rfl, (Vertex_toBytes_words exampleVertex).2.2.1, ?_⟩
  rintro ⟨h, -⟩
  exact absurd h (by decide)

/-- C2, amended: for every `Vertex` the raw bytes are exactly 32 bytes: the
two floats of `position` at byte offsets 0 and 4, eight padding bytes at
offsets 8 to 15, the three floats of `color` at byte offsets 16, 20 and 24,
and four padding bytes at offsets 28 to 31. -/
theorem Vertex_toBytes_layout (v : Vertex) :
    (Vertex.toBytes v).length = 32
    ∧ readWord32 (Vertex.toBytes v) 0 = some v.position.x
    ∧ readWord32 (Vertex.toBytes v) 4 = some v.position.y
    ∧ ((Vertex.toBytes v).drop 8).take 8 = List.replicate 8 none
    ∧ readWord32 (Vertex.toBytes v) 16 = some v.color.x
    ∧ readWord32 (Vertex.toBytes v) 20 = some v.color.y
    ∧ readWord32 (Vertex.toBytes v) 24 = some v.color.z
    ∧ (Vertex.toBytes v).drop 28 = List.replicate 4 none
    ∧ ((Vertex.toBytes v).take 8).all Option.isSome = true
    ∧ (((Vertex.toBytes v).drop 16).take 12).all Option.isSome = true := by
  rw [Vertex.toBytes_eq]
  simp [readWord32, Word32.bytesLE, ofNat_bytesLE]

/-- C3: the member sizes, the member offsets, the size and the alignment of
`Vertex` under the host-side rules for `vector_float2` and `vector_float3`
equal those of the shader-side struct of a `float2` position followed by a
`float3` color under the shader-side rules. -/
theorem Vertex_layout_matches_shader :
    fieldSizes simdRules Vertex.decl = fieldSizes metalRules shaderVertex
    ∧ fieldOffsets simdRules Vertex.decl = fieldOffsets metalRules shaderVertex
    ∧ structSize simdRules Vertex.decl = structSize metalRules shaderVertex
    ∧ structAlign simdRules Vertex.decl = structAlign metalRules shaderVertex := by
  decide

/-- C4: the member sizes, the member offsets, the size and the alignment of
`Uniform` under the host-side rules for `float` and `vector_uint2` equal
those of the shader-side struct of a `float` scale followed by a `uint2`
viewport size under the shader-side rules. -/
theorem Uniform_layout_matches_shader :
    fieldSizes simdRules Uniform.decl = fieldSizes metalRules shaderUniform
    ∧ fieldOffsets simdRules Uniform.decl = fieldOffsets metalRules shaderUniform
    ∧ structSize simdRules Uniform.decl = structSize metalRules shaderUniform
    ∧ structAlign simdRules Uniform.decl = structAlign metalRules shaderUniform := by
  decide

/-- C5: `Vertex` has exactly two members, in this order: `position`, a
vector of 2 components each a 32-bit float, then `color`, a vector of 3
components each a 32-bit float; every value carries exactly those lanes. -/
theorem Vertex_fields :
    Vertex.decl.fields.length = 2
    ∧ Vertex.decl.fields.map
        (fun f => (f.name, f.type, f.type.components, f.type.scalar, f.type.scalar.bits))
      = [("position", CType.vector_float2, 2, Scalar.f32, 32),
         ("color", CType.vector_float3, 3, Scalar.f32, 32)]
    ∧ ∀ v : Vertex,
        v.lanes.map List.length = Vertex.decl.fields.map (fun f => f.type.components) := by
  refine ⟨rfl, rfl, fun _ => rfl⟩

/-- C6: `Uniform` has exactly two members, in this order: `scale`, a single
32-bit float, then `viewportSize`, a vector of 2 components each a 32-bit
unsigned integer; every value carries exactly those lanes. -/
theorem Uniform_fields :
    Uniform.decl.fields.length = 2
    ∧ Uniform.decl.fields.map
        (fun f => (f.name, f.type, f.type.components, f.type.scalar, f.type.scalar.bits))
      = [("scale", CType.float, 1, Scalar.f32, 32),
         ("viewportSize", CType.vector_uint2, 2, Scalar.u32, 32)]
    ∧ ∀ u : Uniform,
        u.lanes.map List.length = Uniform.decl.fields.map (fun f => f.type.components) := by
  refine ⟨rfl, rfl, fun _ => rfl⟩

/-- C7: the type does not enforce the unit range of the color channels:
the color `(2.0, -1.0, 0.0)` has two channels outside `[0, 1]`, and with any
position it is a `Vertex` whose `color` member, and whose `color` read back
from the raw bytes, is that same color. -/
theorem Vertex_color_range_not_enforced :
    ∃ c : vector_float3,
      floatValue c.x = some 2 ∧ floatValue c.y = some (-1) ∧ floatValue c.z = some 0
      ∧ ¬ inUnitRange c.x ∧ ¬ inUnitRange c.y
      ∧ ∀ p : vector_float2,
          (Vertex.mk p c).color = c
          ∧ Vertex.readColor (Vertex.toBytes (Vertex.mk p c)) = some c := by
  refine ⟨outOfRangeColor, ?_, ?_, ?_, ?_, ?_, fun p => ⟨rfl, Vertex.readColor_toBytes _⟩⟩ <;>
    norm_num [inUnitRange, floatValue, outOfRangeColor]

/-- C8: under rules that give `vector_float2` size 8 and alignment 8 and
`vector_float3` size 16 and alignment 16, `Vertex` has `position` at byte
offset 0 and `color` at byte offset 16, 8 bytes of padding after
`position`, size 32 and alignment 16. -/
theorem Vertex_simd_layout (R : TypeRules CType)
    (hs2 : R.sizeOf .vector_float2 = 8) (ha2 : R.alignOf .vector_float2 = 8)
    (hs3 : R.sizeOf .vector_float3 = 16) (ha3 : R.alignOf .vector_float3 = 16) :
    offsetOf R Vertex.decl "position" = some 0
    ∧ offsetOf R Vertex.decl "color" = some 16
    ∧ fieldOffsets R Vertex.decl = [("position", 0), ("color", 16)]
    ∧ (paddingAfter R Vertex.decl).lookup "position" = some 8
    ∧ structSize R Vertex.decl = 32
    ∧ structAlign R Vertex.decl = 16 := by
  simp [offsetOf, fieldOffsets, layoutFrom, Vertex.decl, structSize, structAlign, endFrom,
    paddingAfter, alignUp, hs2, ha2, hs3, ha3, List.lookup]

/-- Witness of C8: the host-side rules have the stated entries. -/
theorem Vertex_simd_layout_witness :
    simdRules.sizeOf .vector_float2 = 8 ∧ simdRules.alignOf .vector_float2 = 8
    ∧ simdRules.sizeOf .vector_float3 = 16 ∧ simdRules.alignOf .vector_float3 = 16
    ∧ offsetOf simdRules Vertex.decl "position" = some 0
    ∧ offsetOf simdRules Vertex.decl "color" = some 16
    ∧ fieldOffsets simdRules Vertex.decl = [("position", 0), ("color", 16)]
    ∧ (paddingAfter simdRules Vertex.decl).lookup "position" = some 8
    ∧ structSize simdRules Vertex.decl = 32
    ∧ structAlign simdRules Vertex.decl = 16 :=
  ⟨rfl, rfl, rfl, rfl, Vertex_simd_layout simdRules rfl rfl rfl rfl⟩

/-- C9: under rules that give `float` size 4 and alignment 4 and
`vector_uint2` size 8 and alignment 8, `Uniform` has `scale` at byte offset
0 and `viewportSize` at byte offset 8, 4 bytes of padding after `scale`,
size 16 and alignment 8. -/
theorem Uniform_simd_layout (R : TypeRules CType)
    (hsf : R.sizeOf .float = 4) (haf : R.alignOf .float = 4)
    (hsu : R.sizeOf .vector_uint2 = 8) (hau : R.alignOf .vector_uint2 = 8) :
    offsetOf R Uniform.decl "scale" = some 0
    ∧ offsetOf R Uniform.decl "viewportSize" = some 8
    ∧ fieldOffsets R Uniform.decl = [("scale", 0), ("viewportSize", 8)]
    ∧ (paddingAfter R Uniform.decl).lookup "scale" = some 4
    ∧ structSize R Uniform.decl = 16
    ∧ structAlign R Uniform.decl = 8 := by
  simp [offsetOf, fieldOffsets, layoutFrom, Uniform.decl, structSize, structAlign, endFrom,
    paddingAfter, alignUp, hsf, haf, hsu, hau, List.lookup]

/-- Witness of C9: the host-side rules have the stated entries. -/
theorem Uniform_simd_layout_witness :
    simdRules.sizeOf .float = 4 ∧ simdRules.alignOf .float = 4
    ∧ simdRules.sizeOf .vector_uint2 = 8 ∧ simdRules.alignOf .vector_uint2 = 8
    ∧ offsetOf simdRules Uniform.decl "scale" = some 0
    ∧ offsetOf simdRules Uniform.decl "viewportSize" = some 8
    ∧ fieldOffsets simdRules Uniform.decl = [("scale", 0), ("viewportSize", 8)]
    ∧ (paddingAfter simdRules Uniform.decl).lookup "scale" = some 4
    ∧ structSize simdRules Uniform.decl = 16
    ∧ structAlign simdRules Uniform.decl = 8 :=
  ⟨rfl, rfl, rfl, rfl, Uniform_simd_layout simdRules rfl rfl rfl rfl⟩

/-- C10: in an array of `Vertex` records packed from an address `base` that
is a multiple of 16, record `i` starts at byte offset `i * sizeof(Vertex)`,
the next record starts where it ends, its `position` and `color` lie at
buffer offsets `i * 32` and `i * 32 + 16`, each member offset within the
buffer and each member address is a multiple of the alignment of the
member, the size of `Vertex` is a multiple of its alignment, and no later
record overlaps record `i`. -/
theorem Vertex_array_aligned (base i : Nat) (h : 16 ∣ base) :
    elemOffset simdRules Vertex.decl i = i * 32
    ∧ elemOffset simdRules Vertex.decl (i + 1)
        = elemOffset simdRules Vertex.decl i + structSize simdRules Vertex.decl
    ∧ fieldAddrs simdRules Vertex.decl 0 i
        = [(CType.vector_float2, 0 + i * 32 + 0), (CType.vector_float3, 0 + i * 32 + 16)]
    ∧ simdRules.alignOf .vector_float2 = 8 ∧ simdRules.alignOf .vector_float3 = 16
    ∧ (∀ q ∈ fieldAddrs simdRules Vertex.decl 0 i, simdRules.alignOf q.1 ∣ q.2)
    ∧ (∀ q ∈ fieldAddrs simdRules Vertex.decl base i, simdRules.alignOf q.1 ∣ q.2)
    ∧ structAlign simdRules Vertex.decl ∣ structSize simdRules Vertex.decl
    ∧ ∀ j, i < j →
        elemOffset simdRules Vertex.decl i + structSize simdRules Vertex.decl
          ≤ elemOffset simdRules Vertex.decl j := by
  have hs : structSize simdRules Vertex.decl = 32 := rfl
  have he : ∀ k, elemOffset simdRules Vertex.decl k = k * 32 := fun _ => rfl
  have hf : ∀ b, fieldAddrs simdRules Vertex.decl b i
      = [(CType.vector_float2, b + i * 32 + 0), (CType.vector_float3, b + i * 32 + 16)] :=
    fun _ => rfl
  have h8 : simdRules.alignOf .vector_float2 = 8 := rfl
  have h16 : simdRules.alignOf .vector_float3 = 16 := rfl
  refine ⟨he i, ?_, hf 0, h8, h16, ?_, ?_, ?_, ?_⟩
  · rw [he, he, hs]; omega
  · intro q hq
    rw [hf] at hq
    simp only [List.mem_cons, List.mem_singleton, List.not_mem_nil, or_false] at hq
    rcases hq with rfl | rfl
    · show simdRules.alignOf .vector_float2 ∣ _
      rw [h8]; omega
    · show simdRules.alignOf .vector_float3 ∣ _
      rw [h16]; omega
  · intro q hq
    rw [hf] at hq
    simp only [List.mem_cons, List.mem_singleton, List.not_mem_nil, or_false] at hq
    rcases hq with rfl | rfl
    · show simdRules.alignOf .vector_float2 ∣ _
      rw [h8]; omega
    · show simdRules.alignOf .vector_float3 ∣ _
      rw [h16]; omega
  · exact ⟨2, rfl⟩
  · intro j hj
    rw [he, he, hs]; omega

/-- Witness of C10: record 3 of an array at address 4096. -/
theorem Vertex_array_aligned_witness :
    16 ∣ 4096
    ∧ elemOffset simdRules Vertex.decl 3 = 96
    ∧ fieldAddrs simdRules Vertex.decl 4096 3
        = [(CType.vector_float2, 4192), (CType.vector_float3, 4208)]
    ∧ (∀ q ∈ fieldAddrs simdRules Vertex.decl 4096 3, simdRules.alignOf q.1 ∣ q.2) :=
  ⟨by decide, (Vertex_array_aligned 4096 3 (by decide)).1, rfl,
    (Vertex_array_aligned 4096 3 (by decide)).2.2.2.2.2.2.1⟩

end Deus
